import Mathlib

/- Verification development for the CryptoCast analytics core.

The model covers the two algorithmic modules of the repository:
  * `AIPredictor` (src/ai_predictor.py): feature engineering, the forecast
    entry point `predict_price`, confidence scoring and recommendation.
  * `PatternAnalyzer` (src/pattern_analyzer.py): the five technical
    sub-analyses, the aggregation summary and the entry point
    `analyze_patterns`.

Scalar values are modelled by `PF`, a shallow model of IEEE double values as
used by numpy/pandas here: a value is NaN, one of the two infinities, or a
finite value (modelled exactly as a rational; float rounding is irrelevant to
the control-flow properties proved below and is noted where a literal such as
1.02 is not exactly representable). Square roots (numpy sqrt, the standard
deviation, the scaler scale) are not rational, so every definition that needs
one is parametrised by a function `sq : PF → PF` standing for the libraries
float square root; no theorem below depends on properties of `sq` beyond the
ones it states. Library routines whose internals are outside this repository
(the sklearn estimators and the train/test shuffle) are parameters of the
model, bundled in `SKLib`, each taking its random seed explicitly; the global
random state is modelled by `Rng` and is consumed only when code would pass
`random_state=None`, which this repository never does. -/

inductive PF where
  | nan : PF
  | pinf : PF
  | ninf : PF
  | num : ℚ → PF
deriving DecidableEq

def PF.isNa : PF → Bool
  | .nan => true
  | _ => false

def PF.add : PF → PF → PF
  | .nan, _ => .nan
  | _, .nan => .nan
  | .pinf, .ninf => .nan
  | .ninf, .pinf => .nan
  | .pinf, _ => .pinf
  | _, .pinf => .pinf
  | .ninf, _ => .ninf
  | _, .ninf => .ninf
  | .num a, .num b => .num (a + b)

def PF.neg : PF → PF
  | .nan => .nan
  | .pinf => .ninf
  | .ninf => .pinf
  | .num a => .num (-a)

def PF.sub (x y : PF) : PF := x.add y.neg

def PF.mul : PF → PF → PF
  | .nan, _ => .nan
  | _, .nan => .nan
  | .pinf, .pinf => .pinf
  | .pinf, .ninf => .ninf
  | .ninf, .pinf => .ninf
  | .ninf, .ninf => .pinf
  | .pinf, .num b => if b = 0 then .nan else if 0 < b then .pinf else .ninf
  | .num a, .pinf => if a = 0 then .nan else if 0 < a then .pinf else .ninf
  | .ninf, .num b => if b = 0 then .nan else if 0 < b then .ninf else .pinf
  | .num a, .ninf => if a = 0 then .nan else if 0 < a then .ninf else .pinf
  | .num a, .num b => .num (a * b)

/- Division follows IEEE semantics with a positive zero denominator:
x/0 is +-inf for nonzero finite x and NaN for 0/0. -/
def PF.div : PF → PF → PF
  | .nan, _ => .nan
  | _, .nan => .nan
  | .num a, .num b =>
      if b = 0 then (if a = 0 then .nan else if 0 < a then .pinf else .ninf)
      else .num (a / b)
  | .num _, .pinf => .num 0
  | .num _, .ninf => .num 0
  | .pinf, .num b => if 0 ≤ b then .pinf else .ninf
  | .ninf, .num b => if 0 ≤ b then .ninf else .pinf
  | .pinf, .pinf => .nan
  | .pinf, .ninf => .nan
  | .ninf, .pinf => .nan
  | .ninf, .ninf => .nan

/- Strict comparison; any comparison with NaN is false, as in IEEE. -/
def PF.lt : PF → PF → Bool
  | .nan, _ => false
  | _, .nan => false
  | .num a, .num b => decide (a < b)
  | .ninf, .ninf => false
  | .ninf, _ => true
  | _, .ninf => false
  | .pinf, _ => false
  | _, .pinf => true

def PF.abs : PF → PF
  | .nan => .nan
  | .pinf => .pinf
  | .ninf => .pinf
  | .num a => .num |a|

/- Left-fold sum starting at 0, as numpy/pandas sums do. -/
def sumPF (l : List PF) : PF := l.foldl PF.add (.num 0)

/- Series are lists of PF values indexed by position; every rolling/shift
operation below is expressed as a map over the index range, mirroring the
aligned pandas Series operations used by the source. -/

/- Series.diff: first entry NaN, then pairwise difference. -/
def diffPF (xs : List PF) : List PF :=
  (List.range xs.length).map (fun i =>
    if i = 0 then PF.nan else (xs.getD i PF.nan).sub (xs.getD (i - 1) PF.nan))

/- Series.pct_change: first entry NaN, then fractional change. -/
def pctChangePF (xs : List PF) : List PF :=
  (List.range xs.length).map (fun i =>
    if i = 0 then PF.nan
    else ((xs.getD i PF.nan).sub (xs.getD (i - 1) PF.nan)).div (xs.getD (i - 1) PF.nan))

/- Series.shift(k): k leading NaNs, then the series shifted by k. -/
def shiftPF (k : ℕ) (xs : List PF) : List PF :=
  (List.range xs.length).map (fun i =>
    if i < k then PF.nan else xs.getD (i - k) PF.nan)

/- The window of width w ending at index i (inclusive). -/
def windowAt (xs : List PF) (i w : ℕ) : List PF := (xs.take (i + 1)).drop (i + 1 - w)

/- Series.rolling(w).mean() with the default min_periods = w: NaN until a
full window exists; a NaN inside the window propagates through the sum. -/
def rollingMeanPF (w : ℕ) (xs : List PF) : List PF :=
  (List.range xs.length).map (fun i =>
    if i + 1 < w then PF.nan else (sumPF (windowAt xs i w)).div (.num w))

/- Sample standard deviation (ddof = 1) of a full window of w values. -/
def windowStd (sq : PF → PF) (w : ℕ) (win : List PF) : PF :=
  let m := (sumPF win).div (.num w)
  sq (((sumPF (win.map (fun x => (x.sub m).mul (x.sub m))))).div (.num (w - 1)))

/- Series.rolling(w).std(): NaN until a full window exists. -/
def rollingStdPF (sq : PF → PF) (w : ℕ) (xs : List PF) : List PF :=
  (List.range xs.length).map (fun i =>
    if i + 1 < w then PF.nan else windowStd sq w (windowAt xs i w))

/- delta.where(delta > 0, 0): keep positive entries, replace the rest
(including NaN, whose comparison is false) by 0. -/
def posPartSeries (xs : List PF) : List PF :=
  xs.map (fun x => if PF.lt (.num 0) x then x else .num 0)

/- (-delta.where(delta < 0, 0)): negated negative part, 0 elsewhere. -/
def negPartSeries (xs : List PF) : List PF :=
  xs.map (fun x => if PF.lt x (.num 0) then x.neg else .num 0)

/- AIPredictor._calculate_rsi / the identical inline RSI of the pattern
analyzer: 100 - 100/(1 + RS) with RS the ratio of the rolling mean gain to
the rolling mean loss over the window. -/
def rsiPF (w : ℕ) (xs : List PF) : List PF :=
  let d := diffPF xs
  let g := rollingMeanPF w (posPartSeries d)
  let l := rollingMeanPF w (negPartSeries d)
  (List.range xs.length).map (fun i =>
    (PF.num 100).sub ((PF.num 100).div ((PF.num 1).add
      ((g.getD i PF.nan).div (l.getD i PF.nan)))))

/- Series.dropna() on a single series. -/
def dropnaPF (xs : List PF) : List PF := xs.filter (fun x => !x.isNa)

/- numpy mean: plain sum over length, no NaN skipping. -/
def meanNp (l : List PF) : PF := (sumPF l).div (.num l.length)

/- pandas Series.mean(): skips NaN entries; NaN when none remain. -/
def meanSkip (l : List PF) : PF :=
  let v := dropnaPF l
  if v.isEmpty then PF.nan else (sumPF v).div (.num v.length)

/- pandas Series.std(): skips NaN, ddof = 1, NaN for fewer than two values. -/
def stdSkip (sq : PF → PF) (l : List PF) : PF :=
  let v := dropnaPF l
  if v.length < 2 then PF.nan
  else
    let m := (sumPF v).div (.num v.length)
    sq ((sumPF (v.map (fun x => (x.sub m).mul (x.sub m)))).div (.num (v.length - 1)))

/- l.tail(k) / l[-k:]: the last k entries (the whole list when shorter). -/
def lastNPF (k : ℕ) (l : List PF) : List PF := l.drop (l.length - k)

def lastNQ (k : ℕ) (l : List ℚ) : List ℚ := l.drop (l.length - k)

def lastNStr (k : ℕ) (l : List String) : List String := l.drop (l.length - k)

/- Python min/max over a nonempty collection. -/
def listMinQ : List ℚ → ℚ
  | [] => 0
  | h :: t => t.foldl min h

def listMaxQ : List ℚ → ℚ
  | [] => 0
  | h :: t => t.foldl max h

def qMean (l : List ℚ) : ℚ := l.sum / l.length

/- pandas ewm(span).mean() with the default adjust=True, on a series without
NaNs (the only way the source uses it), in the standard recursive form:
numerator and denominator both decay by beta = 1 - alpha. -/
def ewmGo (beta : ℚ) : List ℚ → ℚ → ℚ → List ℚ
  | [], _, _ => []
  | x :: rest, nu, de =>
      let nu2 := beta * nu + x
      let de2 := beta * de + 1
      (nu2 / de2) :: ewmGo beta rest nu2 de2

def ewmMean (span : ℚ) (xs : List ℚ) : List ℚ := ewmGo (1 - 2 / (span + 1)) xs 0 0

/- The historical-data object handed to both entry points: prices and
total_volumes are ordered sequences of [timestamp_ms, value] pairs. -/
structure HistData where
  prices : List (ℤ × ℚ)
  total_volumes : List (ℤ × ℚ)

/- df.sort_values("timestamp"): sort the pairs by timestamp ascending (the
model uses a stable sort; no claim below depends on the order of rows with
duplicate timestamps). -/
def sortedPrices (prices : List (ℤ × ℚ)) : List (ℤ × ℚ) :=
  List.insertionSort (fun a b => a.1 ≤ b.1) prices

/- pandas dt.hour of an epoch-milliseconds timestamp (UTC). -/
def hourOfMs (t : ℤ) : ℤ := (Int.fdiv t 3600000).emod 24

/- pandas dt.dayofweek (Monday = 0); 1970-01-01 was a Thursday (= 3). -/
def dayOfWeekOfMs (t : ℤ) : ℤ := (Int.fdiv t 86400000 + 3).emod 7

/- AIPredictor._prepare_features: the feature columns in dataframe order
(timestamp and price excluded, exactly the feature_columns selection of
predict_price): price_change, ma_5, ma_10, volatility, rsi, the interleaved
price/change lags 1..5, hour, day_of_week. -/
def featureCols (sq : PF → PF) (ts : List ℤ) (pr : List ℚ) : List (List PF) :=
  let prPF := pr.map PF.num
  let priceChange := pctChangePF prPF
  [priceChange,
   rollingMeanPF 5 prPF,
   rollingMeanPF 10 prPF,
   rollingStdPF sq 5 prPF,
   rsiPF 14 prPF,
   shiftPF 1 prPF, shiftPF 1 priceChange,
   shiftPF 2 prPF, shiftPF 2 priceChange,
   shiftPF 3 prPF, shiftPF 3 priceChange,
   shiftPF 4 prPF, shiftPF 4 priceChange,
   shiftPF 5 prPF, shiftPF 5 priceChange,
   ts.map (fun t => PF.num (hourOfMs t)),
   ts.map (fun t => PF.num (dayOfWeekOfMs t))]

/- df.dropna(): the row indices kept, i.e. those whose every feature value is
defined (the timestamp and price columns are never NaN). -/
def keepIdx (sq : PF → PF) (ts : List ℤ) (pr : List ℚ) : List ℕ :=
  (List.range pr.length).filter
    (fun i => (featureCols sq ts pr).all (fun col => !(col.getD i PF.nan).isNa))

/- The cleaned feature table: X rows, the price target, and the last cleaned
price (df["price"].iloc[-1] of the dropna result, used by the forecast loop). -/
structure FeatTable where
  rows : List (List PF)
  target : List ℚ
  lastPrice : ℚ

/- AIPredictor._prepare_features: raises (models as an error result, caught by
the callers try/except) below 10 points, otherwise sorts by timestamp, builds
the indicator/lag/time features and drops incomplete rows. -/
def prepareFeatures (sq : PF → PF) (prices : List (ℤ × ℚ)) : Except String FeatTable :=
  if prices.length < 10 then .error "Not enough data for prediction"
  else
    let s := sortedPrices prices
    let ts := s.map (fun p => p.1)
    let pr := s.map (fun p => p.2)
    let keep := keepIdx sq ts pr
    .ok { rows := keep.map (fun i => (featureCols sq ts pr).map (fun col => col.getD i PF.nan)),
          target := keep.map (fun i => pr.getD i 0),
          lastPrice := (keep.map (fun i => pr.getD i 0)).getLastD 0 }

/- The sklearn components used by predict_price, as parameters of the model:
perm seed n is the shuffled index permutation drawn by train_test_split,
rfFit seed X y is the fitted RandomForestRegressor(n_estimators=100) as a
single-row prediction function, linFit X y the fitted LinearRegression.
Their internals live outside this repository. -/
structure SKLib where
  perm : ℕ → ℕ → List ℕ
  rfFit : ℕ → List (List PF) → List PF → (List PF → PF)
  linFit : List (List PF) → List PF → (List PF → PF)

/- The ambient global random state. It advances only when a component is
given random_state=None; this repository always passes a fixed seed. -/
structure Rng where
  state : ℕ

def Rng.next (r : Rng) : ℕ × Rng := (r.state, { state := r.state + 1 })

def resolveSeed : Option ℕ → Rng → ℕ × Rng
  | some s, r => (s, r)
  | none, r => r.next

/- StandardScaler.fit on the training rows: per-column mean and scale, the
scale being the population standard deviation with exact zeros replaced by 1
(sklearn _handle_zeros_in_scale). -/
def scalerFit (sq : PF → PF) (rows : List (List PF)) : List PF × List PF :=
  let d := (rows.headD []).length
  let col := fun j => rows.map (fun r => r.getD j PF.nan)
  let mean := (List.range d).map (fun j => meanNp (col j))
  let scale := (List.range d).map (fun j =>
    let m := meanNp (col j)
    let s := sq (meanNp ((col j).map (fun x => (x.sub m).mul (x.sub m))))
    if s = PF.num 0 then PF.num 1 else s)
  (mean, scale)

def scaleRow (mean scale : List PF) (row : List PF) : List PF :=
  (List.range mean.length).map (fun j =>
    ((row.getD j PF.nan).sub (mean.getD j PF.nan)).div (scale.getD j PF.nan))

/- The 24-step autoregressive forecast loop: predict, append, then refresh
only the price_change feature (column 0) to (pred - last)/last, guarded by
the row being nonempty, exactly as the source does. -/
def autoreg (model : List PF → PF) (lastP : ℚ) : ℕ → List PF → List PF
  | 0, _ => []
  | k + 1, row =>
      let pred := model row
      let row2 := if 0 < row.length
        then row.set 0 ((pred.sub (.num lastP)).div (.num lastP)) else row
      pred :: autoreg model lastP k row2

/- Per-model performance: MAE, RMSE and the derived accuracy
max(0, 100 - 100*MAE/mean(y_test)); Python max(0, x) yields 0 when x is NaN. -/
structure Perf where
  mae : PF
  rmse : PF
  accuracy : PF
deriving DecidableEq

def perfOf (sq : PF → PF) (yte ypred : List PF) : Perf :=
  let diffs := (yte.zip ypred).map (fun p => p.1.sub p.2)
  let mae := meanNp (diffs.map PF.abs)
  let rmse := sq (meanNp (diffs.map (fun d => d.mul d)))
  let raw := (PF.num 100).sub ((mae.div (meanNp yte)).mul (PF.num 100))
  { mae := mae, rmse := rmse,
    accuracy := if PF.lt (.num 0) raw then raw else .num 0 }

/- AIPredictor._calculate_confidence: numpy mean of the per-model accuracies,
High above 80, Medium above 60, else Low (strict comparisons). -/
def calcConfidence (accs : List PF) : String :=
  let avg := meanNp accs
  if PF.lt (.num 80) avg then "High"
  else if PF.lt (.num 60) avg then "Medium"
  else "Low"

/- np.mean(list_of_rows, axis=0): element-wise mean across the model rows. -/
def npMeanAxis0 (ll : List (List PF)) : List PF :=
  (List.range (ll.headD []).length).map (fun i =>
    (sumPF (ll.map (fun l => l.getD i PF.nan))).div (.num ll.length))

structure TradeAdvice where
  action : String
  confidence : String
deriving DecidableEq

/- AIPredictor._generate_recommendation: thresholds on the 3rd-hour (index 2)
and 12th-hour (index 11) percentage changes of the model-averaged forecast,
checked top to bottom. -/
def genRecommend (predLists : List (List PF)) (currentPrice : ℚ) : TradeAdvice :=
  let avg := npMeanAxis0 predLists
  let st := (((avg.getD 2 PF.nan).sub (.num currentPrice)).div (.num currentPrice)).mul (.num 100)
  let mt := (((avg.getD 11 PF.nan).sub (.num currentPrice)).div (.num currentPrice)).mul (.num 100)
  if PF.lt (.num 5) st && PF.lt (.num 10) mt then { action := "Strong Buy", confidence := "High" }
  else if PF.lt (.num 2) st && PF.lt (.num 5) mt then { action := "Buy", confidence := "Medium" }
  else if PF.lt st (.num (-5)) && PF.lt mt (.num (-10)) then { action := "Strong Sell", confidence := "High" }
  else if PF.lt st (.num (-2)) && PF.lt mt (.num (-5)) then { action := "Sell", confidence := "Medium" }
  else { action := "Hold", confidence := "Medium" }

/- The timestamp of the last element of the raw input price list, in epoch
seconds (datetime.fromtimestamp(prices[-1][0] / 1000) as an instant; the
ISO-8601 rendering is a presentation of this value). -/
def lastObsTs (hd : HistData) : ℚ := ((hd.prices.getLastD (0, 0)).1 : ℚ) / 1000

/- The 24 forecast timestamps: the last observed instant plus 1..24 hours. -/
def predTimestamps (hd : HistData) : List ℚ :=
  (List.range 24).map (fun (i : ℕ) => lastObsTs hd + 3600 * ((i : ℚ) + 1))

structure PredOk where
  predictions : List (String × List PF)
  timestamps : List ℚ
  model_performance : List (String × Perf)
  current_price : ℚ
  confidence_level : String
  recommendation : TradeAdvice
deriving DecidableEq

/- ceil(0.2 * n): the held-out test size of train_test_split. (sklearn
computes ceil(test_size*n) in floats; exact rational arithmetic is used here,
which can differ by one row for sizes where 0.2*n rounds up in binary; no
claim below depends on the split sizes.) -/
def testSize (n : ℕ) : ℕ := (n + 4) / 5

/- The success path of predict_price after the data checks: split with seed
42, scale on the training partition, fit/evaluate both models, run the
autoregressive loop from the last scaled training row (falling back to the
last test row), and assemble the result. -/
def predictCore (sq : PF → PF) (lib : SKLib) (rng : Rng) (hd : HistData)
    (ft : FeatTable) : PredOk :=
  let X := ft.rows
  let y := ft.target
  let n := X.length
  let splitSeed := (resolveSeed (some 42) rng).1
  let rng1 := (resolveSeed (some 42) rng).2
  let ord := lib.perm splitSeed n
  let testIdx := ord.take (testSize n)
  let trainIdx := ord.drop (testSize n)
  let Xtrain := trainIdx.map (fun i => X.getD i [])
  let Xtest := testIdx.map (fun i => X.getD i [])
  let ytrain := trainIdx.map (fun i => PF.num (y.getD i 0))
  let ytest := testIdx.map (fun i => PF.num (y.getD i 0))
  let ms := scalerFit sq Xtrain
  let XtrainS := Xtrain.map (scaleRow ms.1 ms.2)
  let XtestS := Xtest.map (scaleRow ms.1 ms.2)
  let rfSeed := (resolveSeed (some 42) rng1).1
  let models : List (String × (List PF → PF)) :=
    [("random_forest", lib.rfFit rfSeed XtrainS ytrain),
     ("linear_regression", lib.linFit XtrainS ytrain)]
  let seedRow := if 0 < XtrainS.length then XtrainS.getLastD [] else XtestS.getLastD []
  let preds := models.map (fun m => (m.1, autoreg m.2 ft.lastPrice 24 seedRow))
  { predictions := preds,
    timestamps := predTimestamps hd,
    model_performance := models.map (fun m => (m.1, perfOf sq ytest (XtestS.map m.2))),
    current_price := (hd.prices.getLastD (0, 0)).2,
    confidence_level := calcConfidence (models.map (fun m => (perfOf sq ytest (XtestS.map m.2)).accuracy)),
    recommendation := genRecommend (preds.map (fun p => p.2)) (hd.prices.getLastD (0, 0)).2 }

/- AIPredictor.predict_price. The whole body runs inside try/except, so the
function is total and every internal failure surfaces as an error result. -/
def predict_price (sq : PF → PF) (lib : SKLib) (rng : Rng) (hd : HistData) :
    Except String PredOk :=
  if hd.prices.length < 20 then .error "Insufficient historical data for prediction"
  else
    match prepareFeatures sq hd.prices with
    | .error e => .error e
    | .ok ft =>
      if ft.rows.length < 10 then .error "Not enough clean data for prediction"
      else .ok (predictCore sq lib rng hd ft)

/- scipy.signal.find_peaks, as used by _find_support_resistance: first the
plateau-aware local maxima scan (_local_maxima_1d), then the minimum-distance
selection (_select_by_peak_distance), highest peaks first. -/

/- The inner plateau scan: the first index at or after j that is below imax
and whose value differs from v (while i_ahead < i_max and x[i_ahead] == x[i]). -/
def plateauEnd (x : ℕ → ℚ) (v : ℚ) (imax : ℕ) : ℕ → ℕ → ℕ
  | 0, j => j
  | fuel + 1, j => if j < imax ∧ x j = v then plateauEnd x v imax fuel (j + 1) else j

/- The outer scan of _local_maxima_1d from i = 1 to i_max - 1, emitting the
midpoint of each maximal plateau that rises on the left and falls on the
right; after a peak the scan resumes past the plateau. -/
def lmLoop (x : ℕ → ℚ) (imax : ℕ) : ℕ → ℕ → List ℕ
  | 0, _ => []
  | fuel + 1, i =>
      if i < imax then
        if x (i - 1) < x i then
          let ia := plateauEnd x (x i) imax (imax + 1) (i + 1)
          if x ia < x i then ((i + (ia - 1)) / 2) :: lmLoop x imax fuel (ia + 1)
          else lmLoop x imax fuel (i + 1)
        else lmLoop x imax fuel (i + 1)
      else []

def localMaxima (pr : List ℚ) : List ℕ :=
  lmLoop (fun i => pr.getD i 0) (pr.length - 1) (pr.length + 1) 1

def natGap (a b : ℕ) : ℕ := if a ≤ b then b - a else a - b

/- One step of _select_by_peak_distance: if peak j is still kept, remove every
other peak strictly closer than dist to it (the peak positions are ascending,
so this equals the two directional while loops of the scipy source). -/
def sbdClear (peaks : List ℕ) (dist : ℕ) (keep : List Bool) (j : ℕ) : List Bool :=
  if keep.getD j false then
    (List.range peaks.length).map (fun k =>
      if k = j then true
      else if natGap (peaks.getD k 0) (peaks.getD j 0) < dist then false
      else keep.getD k false)
  else keep

/- _select_by_peak_distance: process peaks by descending height (argsort of
the priorities, then reversed), keeping survivors greedily. -/
def selectByPeakDistance (peaks : List ℕ) (prio : List ℚ) (dist : ℕ) : List Bool :=
  let order := List.insertionSort
    (fun a b => prio.getD a 0 ≤ prio.getD b 0) (List.range peaks.length)
  order.reverse.foldl (sbdClear peaks dist) (List.replicate peaks.length true)

def findPeaks (pr : List ℚ) (dist : ℕ) : List ℕ :=
  let mids := localMaxima pr
  let keep := selectByPeakDistance mids (mids.map (fun i => pr.getD i 0)) dist
  ((mids.zip keep).filter (fun p => p.2)).map (fun p => p.1)

structure SRRec where
  resistance_levels : List ℚ
  support_levels : List ℚ
  current_price : ℚ
  nearest_resistance : Option ℚ
  nearest_support : Option ℚ
deriving DecidableEq

/- The full detected peak/valley price levels (before the last-3 slicing). -/
def resistanceLevelsOf (pr : List ℚ) : List ℚ :=
  (findPeaks pr (pr.length / 10)).map (fun i => pr.getD i 0)

def supportLevelsOf (pr : List ℚ) : List ℚ :=
  (findPeaks (pr.map (fun q => -q)) (pr.length / 10)).map (fun i => pr.getD i 0)

/- PatternAnalyzer._find_support_resistance: peaks of the price series are
resistance, peaks of the negated series are support; the reported lists keep
the last three levels, while nearest_resistance/nearest_support take the
minimum/maximum over ALL detected levels (None when none exist). -/
def findSR (pr : List ℚ) : SRRec :=
  let res := resistanceLevelsOf pr
  let sup := supportLevelsOf pr
  { resistance_levels := lastNQ 3 res,
    support_levels := lastNQ 3 sup,
    current_price := pr.getLastD 0,
    nearest_resistance := if res.isEmpty then none else some (listMinQ res),
    nearest_support := if sup.isEmpty then none else some (listMaxQ sup) }

structure TrendRec where
  trend_direction : String
  trend_strength : String
  slope : ℚ
  correlation : PF
  ma_cross_signal : String
  above_ma5 : Bool
  above_ma20 : Bool
deriving DecidableEq

/- max(min(r, 1), -1), NaN passing through as in Python min/max. -/
def pfClip1 (v : PF) : PF :=
  if PF.lt (.num 1) v then .num 1 else if PF.lt v (.num (-1)) then .num (-1) else v

/- PatternAnalyzer._analyze_trend: ordinary least squares of price against
the sample index (scipy.stats.linregress with bias-1 covariances), moving
average comparisons, strength by the absolute correlation. -/
def analyzeTrend (sq : PF → PF) (pr : List ℚ) : TrendRec :=
  let n := pr.length
  let xm : ℚ := ((n : ℚ) - 1) / 2
  let ym : ℚ := qMean pr
  let ssxm : ℚ := qMean ((List.range n).map (fun (i : ℕ) => ((i : ℚ) - xm) ^ 2))
  let ssym : ℚ := qMean (pr.map (fun y => (y - ym) ^ 2))
  let ssxym : ℚ := qMean ((List.range n).map (fun (i : ℕ) => ((i : ℚ) - xm) * (pr.getD i 0 - ym)))
  let slope : ℚ := ssxym / ssxm
  let r : PF :=
    if ssxm * ssym = 0 then .num 0
    else pfClip1 ((PF.num ssxym).div (sq (.num (ssxm * ssym))))
  let prPF := pr.map PF.num
  let ma5 := rollingMeanPF 5 prPF
  let ma20 := rollingMeanPF 20 prPF
  { trend_direction := if 0 < slope then "Bullish" else if slope < 0 then "Bearish" else "Sideways",
    trend_strength := if PF.lt (.num (4/5)) r.abs then "Strong"
      else if PF.lt (.num (1/2)) r.abs then "Moderate" else "Weak",
    slope := slope,
    correlation := r,
    ma_cross_signal := if PF.lt (ma20.getLastD PF.nan) (ma5.getLastD PF.nan)
      then "Bullish" else "Bearish",
    above_ma5 := PF.lt (ma5.getLastD PF.nan) (.num (pr.getLastD 0)),
    above_ma20 := PF.lt (ma20.getLastD PF.nan) (.num (pr.getLastD 0)) }

structure VolRec where
  volatility_24h : PF
  volatility_7d : PF
  volatility_trend : String
  volatility_level : String
  recent_vs_historical : PF
deriving DecidableEq

/- returns = prices.pct_change().dropna(). -/
def volReturns (pr : List ℚ) : List PF := dropnaPF (pctChangePF (pr.map PF.num))

/- rolling_vol = returns.rolling(24).std(). -/
def rollingVolOf (sq : PF → PF) (pr : List ℚ) : List PF :=
  rollingStdPF sq 24 (volReturns pr)

/- historical_vol = rolling_vol.mean() (NaN-skipping pandas mean). -/
def histVol (sq : PF → PF) (pr : List ℚ) : PF := meanSkip (rollingVolOf sq pr)

/- recent_vol = rolling_vol.tail(24).mean(). -/
def recentVol (sq : PF → PF) (pr : List ℚ) : PF :=
  meanSkip (lastNPF 24 (rollingVolOf sq pr))

/- PatternAnalyzer._analyze_volatility. The float literals 1.1, 0.9, 0.05 and
0.02 are written as exact rationals. The recent-vs-historical ratio is only
computed behind the historical_vol > 0 guard, otherwise it is reported as 0. -/
def analyzeVolatility (sq : PF → PF) (pr : List ℚ) : VolRec :=
  let sd := stdSkip sq (volReturns pr)
  let vol24 := sd.mul (sq (.num 24))
  let vol7 := sd.mul (sq (.num 168))
  let recent := recentVol sq pr
  let hist := histVol sq pr
  { volatility_24h := vol24.mul (.num 100),
    volatility_7d := vol7.mul (.num 100),
    volatility_trend := if PF.lt (hist.mul (.num (11/10))) recent then "Increasing"
      else if PF.lt recent (hist.mul (.num (9/10))) then "Decreasing" else "Stable",
    volatility_level := if PF.lt (.num (1/20)) vol24 then "High"
      else if PF.lt (.num (1/50)) vol24 then "Medium" else "Low",
    recent_vs_historical := if PF.lt (.num 0) hist
      then ((recent.div hist).sub (.num 1)).mul (.num 100) else .num 0 }

structure MomRec where
  rsi : PF
  rsi_signal : String
  macd : ℚ
  macd_signal : ℚ
  macd_histogram : ℚ
  macd_signal_interpretation : String
  momentum : String
deriving DecidableEq

/- PatternAnalyzer._calculate_momentum: 14-period RSI, MACD = EMA12 - EMA26
with its EMA9 signal line, and the momentum label comparing the last price
with prices.iloc[-5] (the fifth element from the end). The callers guarantee
at least 20 rows, so the iloc accesses are in range. -/
def calcMomentum (pr : List ℚ) : MomRec :=
  let rsiLast := (rsiPF 14 (pr.map PF.num)).getLastD PF.nan
  let ema12 := ewmMean 12 pr
  let ema26 := ewmMean 26 pr
  let macd := List.zipWith (fun a b => a - b) ema12 ema26
  let macdSig := ewmMean 9 macd
  let macdHist := List.zipWith (fun a b => a - b) macd macdSig
  { rsi := rsiLast,
    rsi_signal := if PF.lt (.num 70) rsiLast then "Overbought"
      else if PF.lt rsiLast (.num 30) then "Oversold" else "Neutral",
    macd := macd.getLastD 0,
    macd_signal := macdSig.getLastD 0,
    macd_histogram := macdHist.getLastD 0,
    macd_signal_interpretation := if macdSig.getLastD 0 < macd.getLastD 0
      then "Bullish" else "Bearish",
    momentum := if pr.getD (pr.length - 5) 0 < pr.getLastD 0
      then "Positive" else "Negative" }

structure CandleRec where
  recent_patterns : List String
  all_patterns : List String
  overall_signal : String
deriving DecidableEq

/- The triple scan of _identify_candlestick_patterns for i = 2..n-1. The
float literals 1.02, 0.98, 0.005 are written as exact rationals; patterns are
pairwise distinct strings, so the substring membership tests of the source
coincide with equality. Input prices are positive per the data model, so the
Doji ratio never divides by zero. -/
def candleScan (pr : List ℚ) : List String :=
  ((List.range pr.length).drop 2).filterMap (fun i =>
    let p2 := pr.getD (i - 2) 0
    let p1 := pr.getD (i - 1) 0
    let c := pr.getD i 0
    if p1 < p2 ∧ p1 * (51/50) < c then some "Bullish Reversal"
    else if p2 < p1 ∧ c < p1 * (49/50) then some "Bearish Reversal"
    else if |c - p1| / p1 < 1/200 then some "Doji"
    else none)

/- PatternAnalyzer._identify_candlestick_patterns. (For fewer than 3 rows the
source returns a differently-keyed dict; that branch is unreachable from
analyze_patterns, which requires 20 rows, and is modelled by the same record
with empty fields.) -/
def identifyCandles (pr : List ℚ) : CandleRec :=
  if pr.length < 3 then
    { recent_patterns := [], all_patterns := [], overall_signal := "Neutral" }
  else
    let pats := candleScan pr
    let recent := lastNStr 3 pats
    let bull := recent.countP (fun p => p == "Bullish Reversal")
    let bear := recent.countP (fun p => p == "Bearish Reversal")
    { recent_patterns := recent,
      all_patterns := pats,
      overall_signal := if bear < bull then "Bullish"
        else if bull < bear then "Bearish" else "Neutral" }

instance {e a : Type} [DecidableEq e] [DecidableEq a] : DecidableEq (Except e a) := fun x y =>
  match x, y with
  | .error u, .error v => decidable_of_iff (u = v) (by simp)
  | .ok u, .ok v => decidable_of_iff (u = v) (by simp)
  | .error _, .ok _ => Decidable.isFalse (by simp)
  | .ok _, .error _ => Decidable.isFalse (by simp)

structure PatResults where
  support_resistance : Except String SRRec
  trend_analysis : Except String TrendRec
  volatility_analysis : Except String VolRec
  momentum_indicators : Except String MomRec
  candlestick_patterns : Except String CandleRec
deriving DecidableEq

/- The signals collected by _generate_pattern_summary, in source order; a
sub-analysis that failed contributes nothing. -/
def collectSignals (r : PatResults) : List String :=
  (match r.trend_analysis with
   | .ok t => [t.trend_direction]
   | .error _ => []) ++
  (match r.momentum_indicators with
   | .ok m => [m.rsi_signal, m.macd_signal_interpretation]
   | .error _ => []) ++
  (match r.candlestick_patterns with
   | .ok c => [c.overall_signal]
   | .error _ => [])

def bullishCount (sigs : List String) : ℕ :=
  sigs.countP (fun s => s == "Bullish" || s == "Strong Buy" || s == "Buy")

def bearishCount (sigs : List String) : ℕ :=
  sigs.countP (fun s => s == "Bearish" || s == "Strong Sell" || s == "Sell")

/- PatternAnalyzer._get_recommendation. -/
def getRecommendationText (sentiment confidence : String) : String :=
  if sentiment = "Bullish" ∧ confidence = "High" then "Strong consideration for long positions"
  else if sentiment = "Bullish" then "Moderate bullish outlook, consider entry points"
  else if sentiment = "Bearish" ∧ confidence = "High" then "Strong bearish signals, consider exit strategy"
  else if sentiment = "Bearish" then "Moderate bearish outlook, exercise caution"
  else "Mixed signals, wait for clearer direction"

structure PatSummary where
  overall_sentiment : String
  confidence : String
  bullish : ℕ
  bearish : ℕ
  neutral : ℕ
  recommendation : String
deriving DecidableEq

/- The core of _generate_pattern_summary, as a function of the collected
signal list: bullish wins outright over bearish plus neutral (and
symmetrically), confidence High only when the winning count reaches 3. -/
def summaryOfSignals (sigs : List String) : PatSummary :=
  let b := bullishCount sigs
  let br := bearishCount sigs
  let nu := sigs.length - b - br
  let sc : String × String :=
    if br + nu < b then ("Bullish", if 3 ≤ b then "High" else "Medium")
    else if b + nu < br then ("Bearish", if 3 ≤ br then "High" else "Medium")
    else ("Neutral", "Medium")
  { overall_sentiment := sc.1,
    confidence := sc.2,
    bullish := b,
    bearish := br,
    neutral := nu,
    recommendation := getRecommendationText sc.1 sc.2 }

structure PatOut where
  results : PatResults
  summary : PatSummary
  stamp : ℚ
deriving DecidableEq

/- The price column of the sorted dataframe. -/
def patPrices (hd : HistData) : List ℚ := (sortedPrices hd.prices).map (fun p => p.2)

/- PatternAnalyzer.analyze_patterns. Fewer than 20 price points yields the
insufficient-data error; assigning the volume column raises a pandas length
mismatch (the Python message also interpolates the two lengths) unless the
volume list has exactly the dataframe length, and the outer try/except turns
that into a top-level error result. Each of the five sub-analyses runs inside
its own try/except; for 20 or more rows of finite data none of them raises,
so each slot holds its computed payload. datetime.now() is modelled by the
explicit clock argument now. -/
def analyze_patterns (sq : PF → PF) (now : ℚ) (hd : HistData) : Except String PatOut :=
  if hd.prices.length < 20 then .error "Insufficient data for pattern analysis"
  else if hd.total_volumes.length ≠ hd.prices.length then
    .error "Length of values does not match length of index"
  else
    let pr := patPrices hd
    let res : PatResults :=
      { support_resistance := .ok (findSR pr),
        trend_analysis := .ok (analyzeTrend sq pr),
        volatility_analysis := .ok (analyzeVolatility sq pr),
        momentum_indicators := .ok (calcMomentum pr),
        candlestick_patterns := .ok (identifyCandles pr) }
    .ok { results := res, summary := summaryOfSignals (collectSignals res), stamp := now }

/- Accessors for stating properties of the success payloads. -/
def exceptOk {e a : Type} : Except e a → Bool
  | .ok _ => true
  | .error _ => false

def okTimes : Except String PredOk → List ℚ
  | .ok r => r.timestamps
  | .error _ => []

def okPreds : Except String PredOk → List (String × List PF)
  | .ok r => r.predictions
  | .error _ => []

def okVolSlot : Except String PatOut → Except String VolRec
  | .ok r => r.results.volatility_analysis
  | .error e => .error e

/- Modelled from the spec words for claim C6 only (the source computes the
plain minimum instead): the minimum detected resistance level lying strictly
above the current price. -/
def specNearestResistance (pr : List ℚ) : Option ℚ :=
  let above := (resistanceLevelsOf pr).filter (fun x => pr.getLastD 0 < x)
  if above.isEmpty then none else some (listMinQ above)

/- Concrete fixtures used by the witnesses and counterexamples. sqId is one
admissible square-root stand-in (only its behaviour on the concrete values it
is applied to matters); libId is one admissible library instantiation. -/
def sqId : PF → PF := fun x => x

def libId : SKLib :=
  { perm := fun _ n => List.range n,
    rfFit := fun _ _ _ => fun _ => PF.num 100,
    linFit := fun _ _ => fun _ => PF.num 100 }

def rng0 : Rng := { state := 0 }

def hdEmpty : HistData := { prices := [], total_volumes := [] }

/- 20 hourly points of the constant price 100. -/
def hdConst20 : HistData :=
  { prices := (List.range 20).map (fun i => ((i : ℤ) * 3600000, (100 : ℚ))),
    total_volumes := [] }

/- 24 hourly points alternating between 100 and 101: the cleaned feature
table has 11 rows, so predict_price succeeds. -/
def hdAlt24 : HistData :=
  { prices := (List.range 24).map
      (fun i => ((i : ℤ) * 3600000, (100 : ℚ) + (if i % 2 = 0 then 0 else 1))),
    total_volumes := [] }

/- 20 points whose peaks are at the prices 10, 50 and seven 2s; the final
(current) price is 30, so the minimum of all resistance levels (2) lies
below the current price while 50 lies above it. -/
def ps6 : List ℚ := [1, 10, 1, 2, 1, 50, 1, 2, 1, 2, 1, 2, 1, 2, 1, 2, 1, 2, 1, 30]

/- 20 points with p14 = 10, p15 = 40 and final price 30: the price five
periods back from the last index (p14) is below the final price while
prices.iloc[-5] (p15) is above it. -/
def ps8 : List ℚ := [20, 21, 20, 21, 20, 21, 20, 21, 20, 21, 20, 21, 20, 21, 10, 40, 20, 21, 20, 30]

/- 20 price points with a strictly longer volume list (21 entries). -/
def hd9long : HistData :=
  { prices := (List.range 20).map (fun i => ((i : ℤ) * 3600000, (100 : ℚ) + i)),
    total_volumes := (List.range 21).map (fun i => ((i : ℤ) * 3600000, (5 : ℚ))) }

/- 20 price points with exactly 20 volume entries. -/
def hd9eq : HistData :=
  { prices := (List.range 20).map (fun i => ((i : ℤ) * 3600000, (100 : ℚ) + i)),
    total_volumes := (List.range 20).map (fun i => ((i : ℤ) * 3600000, (5 : ℚ))) }

/- 20 constant price points with aligned volumes: only 19 returns exist, so
no 24-period rolling window is complete and the historical volatility mean
is NaN. -/
def hd10w : HistData :=
  { prices := (List.range 20).map (fun i => ((i : ℤ) * 3600000, (100 : ℚ))),
    total_volumes := (List.range 20).map (fun i => ((i : ℤ) * 3600000, (5 : ℚ))) }

/- General helper lemmas about the indexed series encoding. -/

theorem getD_rangeMap {α : Type} (f : ℕ → α) (d : α) (n i : ℕ) :
    ((List.range n).map f).getD i d = if i < n then f i else d := by
  by_cases h : i < n
  · simp [List.getD_eq_getElem?_getD, List.getElem?_map, List.getElem?_range h, h]
  · rw [if_neg h]
    rw [List.getD_eq_getElem?_getD, List.getElem?_eq_none (by simpa using Nat.le_of_not_lt h)]
    rfl

theorem getD_replicate {α : Type} (a d : α) (n i : ℕ) :
    (List.replicate n a).getD i d = if i < n then a else d := by
  by_cases h : i < n
  · rw [if_pos h, List.getD_eq_getElem?_getD, List.getElem?_replicate, if_pos h]
    rfl
  · rw [if_neg h, List.getD_eq_getElem?_getD, List.getElem?_eq_none (by simpa using Nat.le_of_not_lt h)]
    rfl

theorem foldl_add_zeros (l : List PF) :
    ∀ a : ℚ, (∀ x ∈ l, x = PF.num 0) → l.foldl PF.add (PF.num a) = PF.num a := by
  induction l with
  | nil => intro a _; rfl
  | cons x t ih =>
      intro a h
      have hx := h x (by simp)
      rw [List.foldl_cons, hx]
      have hz : PF.add (PF.num a) (PF.num 0) = PF.num a := by simp [PF.add]
      rw [hz]
      exact ih a (fun y hy => h y (by simp [hy]))

theorem sumPF_zeros (l : List PF) (h : ∀ x ∈ l, x = PF.num 0) : sumPF l = PF.num 0 :=
  foldl_add_zeros l 0 h

theorem foldl_add_map_num (l : List ℚ) :
    ∀ a : ℚ, (l.map PF.num).foldl PF.add (PF.num a) = PF.num (a + l.sum) := by
  induction l with
  | nil => intro a; simp [List.foldl]
  | cons x t ih =>
      intro a
      rw [List.map_cons, List.foldl_cons]
      have hx : PF.add (PF.num a) (PF.num x) = PF.num (a + x) := rfl
      rw [hx, ih (a + x), List.sum_cons]
      ring_nf

theorem sumPF_map_num (l : List ℚ) : sumPF (l.map PF.num) = PF.num l.sum := by
  rw [sumPF, foldl_add_map_num l 0, zero_add]

theorem meanNp_map_num (l : List ℚ) (h : l ≠ []) : meanNp (l.map PF.num) = PF.num (qMean l) := by
  have hlen : (l.length : ℚ) ≠ 0 := Nat.cast_ne_zero.mpr (List.length_pos.mpr h).ne'
  rw [meanNp, sumPF_map_num, List.length_map, qMean]
  simp [PF.div, hlen]

/- On a constant price series, every price delta is NaN (the head) or 0, so
both the gain and loss rolling means are NaN or 0 and RS = 0/0 is NaN
everywhere: the RSI column is entirely undefined. -/

theorem diff_const_entries (n : ℕ) (c : ℚ) :
    ∀ y ∈ diffPF (List.replicate n (PF.num c)), y = PF.nan ∨ y = PF.num 0 := by
  intro y hy
  rw [diffPF] at hy
  obtain ⟨j, hjmem, rfl⟩ := List.mem_map.mp hy
  have hjn : j < n := by simpa using List.mem_range.mp hjmem
  by_cases h0 : j = 0
  · left
    rw [if_pos h0]
  · right
    rw [if_neg h0, getD_replicate, getD_replicate, if_pos hjn, if_pos (by omega)]
    simp [PF.sub, PF.neg, PF.add]

theorem posPart_diff_const (n : ℕ) (c : ℚ) :
    ∀ x ∈ posPartSeries (diffPF (List.replicate n (PF.num c))), x = PF.num 0 := by
  intro x hx
  obtain ⟨y, hy, rfl⟩ := List.mem_map.mp hx
  rcases diff_const_entries n c y hy with h | h <;> rw [h] <;> simp [PF.lt]

theorem negPart_diff_const (n : ℕ) (c : ℚ) :
    ∀ x ∈ negPartSeries (diffPF (List.replicate n (PF.num c))), x = PF.num 0 := by
  intro x hx
  obtain ⟨y, hy, rfl⟩ := List.mem_map.mp hx
  rcases diff_const_entries n c y hy with h | h <;> rw [h] <;> simp [PF.lt, PF.neg]

theorem rollingMean_zeros_getD (w : ℕ) (hw : 0 < w) (l : List PF)
    (h : ∀ x ∈ l, x = PF.num 0) (i : ℕ) (hi : i < l.length) :
    (rollingMeanPF w l).getD i PF.nan = if i + 1 < w then PF.nan else PF.num 0 := by
  rw [rollingMeanPF, getD_rangeMap, if_pos hi]
  by_cases h14 : i + 1 < w
  · rw [if_pos h14, if_pos h14]
  · rw [if_neg h14, if_neg h14]
    have hwin : sumPF (windowAt l i w) = PF.num 0 := by
      apply sumPF_zeros
      intro x hx
      exact h x (List.take_subset _ _ (List.drop_subset _ _ hx))
    rw [hwin]
    have hne : (w : ℚ) ≠ 0 := by
      simpa using Nat.pos_iff_ne_zero.mp hw
    simp [PF.div, hne]

theorem rsi_const_nan (n : ℕ) (c : ℚ) (i : ℕ) :
    (rsiPF 14 (List.replicate n (PF.num c))).getD i PF.nan = PF.nan := by
  rw [rsiPF]
  simp only [List.length_replicate]
  rw [getD_rangeMap]
  by_cases hi : i < n
  · rw [if_pos hi]
    rw [rollingMean_zeros_getD 14 (by omega) _ (posPart_diff_const n c) i
          (by simp [posPartSeries, diffPF]; omega),
        rollingMean_zeros_getD 14 (by omega) _ (negPart_diff_const n c) i
          (by simp [negPartSeries, diffPF]; omega)]
    by_cases h14 : i + 1 < 14
    · rw [if_pos h14]
      with_unfolding_all decide
    · rw [if_neg h14]
      with_unfolding_all decide
  · rw [if_neg hi]

theorem sorted_const_price (hd : HistData) (c : ℚ) (hc : ∀ p ∈ hd.prices, p.2 = c) :
    (sortedPrices hd.prices).map (fun p => p.2) = List.replicate hd.prices.length c := by
  rw [List.eq_replicate_iff]
  constructor
  · rw [List.length_map]
    exact (List.perm_insertionSort _ _).length_eq
  · intro b hb
    obtain ⟨p, hp, rfl⟩ := List.mem_map.mp hb
    exact hc p ((List.perm_insertionSort _ _).mem_iff.mp hp)

theorem keepIdx_const_nil (sq : PF → PF) (ts : List ℤ) (n : ℕ) (c : ℚ) :
    keepIdx sq ts (List.replicate n c) = [] := by
  rw [keepIdx]
  apply List.filter_eq_nil_iff.mpr
  intro i hi
  have hrsi : (rsiPF 14 ((List.replicate n c).map PF.num)).getD i PF.nan = PF.nan := by
    rw [List.map_replicate]
    exact rsi_const_nan n c i
  have hall : (featureCols sq ts (List.replicate n c)).all
      (fun col => !(col.getD i PF.nan).isNa) = false := by
    apply List.all_eq_false.mpr
    refine ⟨rsiPF 14 ((List.replicate n c).map PF.num), ?_, ?_⟩
    · simp only [featureCols]
      simp
    · rw [hrsi]
      simp [PF.isNa]
  intro hcontra
  rw [hall] at hcontra
  exact absurd hcontra (by decide)

theorem autoreg_length (m : List PF → PF) (lastP : ℚ) :
    ∀ (k : ℕ) (row : List PF), (autoreg m lastP k row).length = k := by
  intro k
  induction k with
  | zero => intro row; rfl
  | succ j ih => intro row; simp [autoreg, ih]

theorem predTimestamps_getD (hd : HistData) (i : ℕ) (h : i < 24) :
    (predTimestamps hd).getD i 0 = lastObsTs hd + 3600 * ((i : ℚ) + 1) := by
  rw [predTimestamps, getD_rangeMap, if_pos h]

theorem foldl_min_mem (h : ℚ) (t : List ℚ) : t.foldl min h ∈ h :: t := by
  induction t generalizing h with
  | nil => simp
  | cons x t ih =>
      rw [List.foldl_cons]
      rcases List.mem_cons.mp (ih (min h x)) with hm | hm
      · rcases min_choice h x with hc | hc <;> rw [hm, hc] <;> simp
      · simp [List.mem_cons.mpr (Or.inr hm)]

theorem foldl_min_le (h : ℚ) (t : List ℚ) : ∀ x ∈ h :: t, t.foldl min h ≤ x := by
  induction t generalizing h with
  | nil =>
      intro x hx
      rw [List.mem_singleton] at hx
      rw [hx]
      simp
  | cons y t ih =>
      intro x hx
      rw [List.foldl_cons]
      rcases List.mem_cons.mp hx with rfl | hx2
      · calc t.foldl min (min x y) ≤ min x y := ih (min x y) (min x y) (by simp)
          _ ≤ x := min_le_left x y
      · rcases List.mem_cons.mp hx2 with rfl | hx3
        · calc t.foldl min (min h x) ≤ min h x := ih (min h x) (min h x) (by simp)
            _ ≤ x := min_le_right h x
        · exact ih (min h y) x (List.mem_cons_of_mem _ hx3)

theorem foldl_max_mem (h : ℚ) (t : List ℚ) : t.foldl max h ∈ h :: t := by
  induction t generalizing h with
  | nil => simp
  | cons x t ih =>
      rw [List.foldl_cons]
      rcases List.mem_cons.mp (ih (max h x)) with hm | hm
      · rcases max_choice h x with hc | hc <;> rw [hm, hc] <;> simp
      · simp [List.mem_cons.mpr (Or.inr hm)]

theorem foldl_max_ge (h : ℚ) (t : List ℚ) : ∀ x ∈ h :: t, x ≤ t.foldl max h := by
  induction t generalizing h with
  | nil =>
      intro x hx
      rw [List.mem_singleton] at hx
      rw [hx]
      simp
  | cons y t ih =>
      intro x hx
      rw [List.foldl_cons]
      rcases List.mem_cons.mp hx with rfl | hx2
      · calc x ≤ max x y := le_max_left x y
          _ ≤ t.foldl max (max x y) := ih (max x y) (max x y) (by simp)
      · rcases List.mem_cons.mp hx2 with rfl | hx3
        · calc x ≤ max h x := le_max_right h x
            _ ≤ t.foldl max (max h x) := ih (max h x) (max h x) (by simp)
        · exact ih (max h y) x (List.mem_cons_of_mem _ hx3)

theorem listMinQ_mem (l : List ℚ) (h : l ≠ []) : listMinQ l ∈ l := by
  cases l with
  | nil => exact absurd rfl h
  | cons a t => exact foldl_min_mem a t

theorem listMinQ_le (l : List ℚ) : ∀ x ∈ l, listMinQ l ≤ x := by
  cases l with
  | nil => intro x hx; cases hx
  | cons a t => exact foldl_min_le a t

theorem listMaxQ_mem (l : List ℚ) (h : l ≠ []) : listMaxQ l ∈ l := by
  cases l with
  | nil => exact absurd rfl h
  | cons a t => exact foldl_max_mem a t

theorem listMaxQ_ge (l : List ℚ) : ∀ x ∈ l, x ≤ listMaxQ l := by
  cases l with
  | nil => intro x hx; cases hx
  | cons a t => exact foldl_max_ge a t

theorem rollingStd_short_nan (sq : PF → PF) (w : ℕ) (xs : List PF) (h : xs.length < w) :
    ∀ x ∈ rollingStdPF sq w xs, x = PF.nan := by
  intro x hx
  rw [rollingStdPF] at hx
  obtain ⟨i, him, rfl⟩ := List.mem_map.mp hx
  have hi : i < xs.length := List.mem_range.mp him
  rw [if_pos (by omega)]

theorem meanSkip_all_nan (l : List PF) (h : ∀ x ∈ l, x = PF.nan) : meanSkip l = PF.nan := by
  have hdrop : dropnaPF l = [] := by
    apply List.filter_eq_nil_iff.mpr
    intro a ha
    rw [h a ha]
    simp [PF.isNa]
  simp [meanSkip, hdrop]

theorem volReturns_short (pr : List ℚ) (hpos : 0 < pr.length) :
    (volReturns pr).length < pr.length := by
  have hlen : (pctChangePF (pr.map PF.num)).length = pr.length := by
    simp [pctChangePF]
  have h0 : PF.nan ∈ pctChangePF (pr.map PF.num) := by
    rw [pctChangePF]
    refine List.mem_map.mpr ⟨0, ?_, ?_⟩
    · simp [hpos]
    · simp
  calc (volReturns pr).length < (pctChangePF (pr.map PF.num)).length :=
      List.length_filter_lt_length_iff_exists.mpr ⟨PF.nan, h0, by simp [PF.isNa]⟩
    _ = pr.length := hlen

theorem histVol_short_nan (sq : PF → PF) (pr : List ℚ)
    (h1 : 0 < pr.length) (h2 : pr.length ≤ 24) : histVol sq pr = PF.nan := by
  apply meanSkip_all_nan
  apply rollingStd_short_nan
  have := volReturns_short pr h1
  omega

/-- Claim C1: for every historical-data input whose price series has fewer
than 20 points, predict_price returns the structured insufficient-data error
result; the function is total (the source wraps its whole body in
try/except), so no exception reaches the caller. -/
theorem C1_insufficient_data_error (sq : PF → PF) (lib : SKLib) (rng : Rng)
    (hd : HistData) (h : hd.prices.length < 20) :
    predict_price sq lib rng hd = .error "Insufficient historical data for prediction" := by
  unfold predict_price
  rw [if_pos h]

/-- Claim C1 witness: the empty price series is rejected with the
insufficient-data error. -/
theorem C1_insufficient_data_error_witness :
    hdEmpty.prices.length < 20 ∧
    predict_price sqId libId rng0 hdEmpty = .error "Insufficient historical data for prediction" :=
  ⟨by decide, C1_insufficient_data_error sqId libId rng0 hdEmpty (by decide)⟩

/-- Claim C2: whenever predict_price succeeds, every model forecast list has
exactly 24 entries, the timestamp list is exactly the 24 instants given by
the last observed timestamp plus 1..24 hours (the source renders these
instants in ISO-8601), and consecutive timestamps increase by exactly one
hour (3600 seconds), in particular strictly. -/
theorem C2_forecast_shape (sq : PF → PF) (lib : SKLib) (rng : Rng) (hd : HistData)
    (h : exceptOk (predict_price sq lib rng hd) = true) :
    (okPreds (predict_price sq lib rng hd)).all (fun m => m.2.length == 24) = true ∧
    okTimes (predict_price sq lib rng hd) = predTimestamps hd ∧
    (okTimes (predict_price sq lib rng hd)).length = 24 ∧
    (∀ i, i < 24 → (okTimes (predict_price sq lib rng hd)).getD i 0 =
      lastObsTs hd + 3600 * ((i : ℚ) + 1)) ∧
    (∀ i, i + 1 < 24 →
      (okTimes (predict_price sq lib rng hd)).getD (i + 1) 0 =
        (okTimes (predict_price sq lib rng hd)).getD i 0 + 3600 ∧
      (okTimes (predict_price sq lib rng hd)).getD i 0 <
        (okTimes (predict_price sq lib rng hd)).getD (i + 1) 0) := by
  rcases hok : predict_price sq lib rng hd with e | r
  · rw [hok] at h
    simp [exceptOk] at h
  · have hr : ∃ ft, r = predictCore sq lib rng hd ft := by
      unfold predict_price at hok
      split at hok
      · simp at hok
      · split at hok
        · simp at hok
        · split at hok
          · simp at hok
          · exact ⟨_, (Except.ok.inj hok).symm⟩
    obtain ⟨ft, rfl⟩ := hr
    refine ⟨?_, rfl, ?_, ?_, ?_⟩
    · simp [okPreds, predictCore, autoreg_length]
    · simp [okTimes, predictCore, predTimestamps]
    · intro i hi
      exact predTimestamps_getD hd i hi
    · intro i hi
      rw [show okTimes (Except.ok (predictCore sq lib rng hd ft)) = predTimestamps hd from rfl]
      rw [predTimestamps_getD hd i (by omega), predTimestamps_getD hd (i + 1) hi]
      constructor
      · push_cast
        ring
      · push_cast
        linarith

/-- Claim C2 witness: a 24-point alternating series on which the pipeline
succeeds, with the timestamp list equal to the specified 24 instants. -/
theorem C2_forecast_shape_witness :
    exceptOk (predict_price sqId libId rng0 hdAlt24) = true ∧
    okTimes (predict_price sqId libId rng0 hdAlt24) = predTimestamps hdAlt24 :=
  ⟨by with_unfolding_all decide,
   (C2_forecast_shape sqId libId rng0 hdAlt24 (by with_unfolding_all decide)).2.1⟩

/-- Claim C3: predict_price is deterministic. All stochastic components are
given the fixed seed 42 (train_test_split and the random forest), so the
result is independent of the ambient global random state: two calls on the
same input, whatever the random state of each, give identical results. -/
theorem C3_forecast_deterministic (sq : PF → PF) (lib : SKLib) (r1 r2 : Rng)
    (hd : HistData) :
    predict_price sq lib r1 hd = predict_price sq lib r2 hd := rfl

/-- Claim C4 counterexample: on 20 points of the constant price 100 the
forecast entry point does NOT return constant-price forecasts with a
Hold/Medium recommendation; it returns the not-enough-clean-data error,
because the RSI feature is 0/0 = NaN on every row and dropna removes the
whole table. -/
theorem C4_constant_series_counterexample :
    predict_price sqId libId rng0 hdConst20 = .error "Not enough clean data for prediction" := by
  with_unfolding_all decide

/-- Claim C4 (amended): for every constant price series of length at least
20, predict_price returns the error result "Not enough clean data for
prediction": every price delta is 0, so RS = 0/0 is undefined on every row,
the RSI column is all NaN, dropna empties the feature table and the cleaned
row count 0 falls below the required 10. -/
theorem C4_constant_series_error (sq : PF → PF) (lib : SKLib) (rng : Rng)
    (hd : HistData) (c : ℚ) (hc : ∀ p ∈ hd.prices, p.2 = c)
    (hlen : 20 ≤ hd.prices.length) :
    predict_price sq lib rng hd = .error "Not enough clean data for prediction" := by
  have h20 : ¬ hd.prices.length < 20 := by omega
  have h10 : ¬ hd.prices.length < 10 := by omega
  have hprep : prepareFeatures sq hd.prices = .ok { rows := [], target := [], lastPrice := 0 } := by
    unfold prepareFeatures
    rw [if_neg h10]
    simp only [sorted_const_price hd c hc, keepIdx_const_nil, List.map_nil, List.getLastD]
  unfold predict_price
  rw [if_neg h20, hprep]
  rfl

/-- Claim C4 witness: the amended claim at the concrete constant series. -/
theorem C4_constant_series_error_witness :
    hdConst20.prices.all (fun p => p.2 == 100) = true ∧
    20 ≤ hdConst20.prices.length ∧
    predict_price sqId libId rng0 hdConst20 = .error "Not enough clean data for prediction" :=
  ⟨by with_unfolding_all decide, by decide,
   C4_constant_series_error sqId libId rng0 hdConst20 100
     (by with_unfolding_all decide) (by decide)⟩

/-- Claim C5: the confidence level is High exactly when the average model
accuracy strictly exceeds 80, Medium exactly when it strictly exceeds 60
without exceeding 80, and Low otherwise; in particular an average of exactly
80 gives Medium and exactly 60 gives Low. -/
theorem C5_confidence_thresholds (l : List ℚ) (h : l ≠ []) :
    (calcConfidence (l.map PF.num) = "High" ↔ 80 < qMean l) ∧
    (calcConfidence (l.map PF.num) = "Medium" ↔ 60 < qMean l ∧ qMean l ≤ 80) ∧
    (calcConfidence (l.map PF.num) = "Low" ↔ qMean l ≤ 60) ∧
    (qMean l = 80 → calcConfidence (l.map PF.num) = "Medium") ∧
    (qMean l = 60 → calcConfidence (l.map PF.num) = "Low") := by
  have hm := meanNp_map_num l h
  by_cases h80 : 80 < qMean l
  · have h60 : 60 < qMean l := lt_trans (by norm_num) h80
    simp [calcConfidence, hm, PF.lt, h80, h60, h80.not_le, h60.not_le, h80.ne', h60.ne']
  · by_cases h60 : 60 < qMean l
    · simp [calcConfidence, hm, PF.lt, h80, h60, not_lt.mp h80, h60.not_le, h60.ne']
    · have hle : qMean l ≤ 60 := not_lt.mp h60
      have hne80 : qMean l ≠ 80 := by
        intro he
        rw [he] at hle
        norm_num at hle
      simp [calcConfidence, hm, PF.lt, h80, h60, hle, hne80]

/-- Claim C5 witness: the boundary average of exactly 80 yields Medium. -/
theorem C5_confidence_thresholds_witness :
    (([85, 75] : List ℚ) ≠ []) ∧ qMean [85, 75] = 80 ∧
    calcConfidence (([85, 75] : List ℚ).map PF.num) = "Medium" :=
  ⟨by decide, by with_unfolding_all decide,
   (C5_confidence_thresholds [85, 75] (by decide)).2.2.2.1 (by with_unfolding_all decide)⟩

/-- Claim C6 counterexample: on ps6 (20 points, peaks and valleys present)
the reported nearest_resistance is 2, the minimum over ALL detected
resistance levels, although the current price is 30 and a resistance level
above it (50) exists: the source does not restrict to levels above the
current price as the claim states. -/
theorem C6_nearest_levels_counterexample :
    ps6.length = 20 ∧
    resistanceLevelsOf ps6 ≠ [] ∧ supportLevelsOf ps6 ≠ [] ∧
    (findSR ps6).current_price = 30 ∧
    (findSR ps6).nearest_resistance = some 2 ∧
    specNearestResistance ps6 = some 50 ∧
    (findSR ps6).nearest_resistance ≠ specNearestResistance ps6 := by
  with_unfolding_all decide

/-- Claim C6 (amended): whenever at least one resistance peak and one support
valley are detected, nearest_resistance is the minimum of all detected
resistance levels and nearest_support the maximum of all detected support
levels, with no filtering against the current price. -/
theorem C6_nearest_levels (pr : List ℚ)
    (hr : resistanceLevelsOf pr ≠ []) (hs : supportLevelsOf pr ≠ []) :
    (findSR pr).nearest_resistance = some (listMinQ (resistanceLevelsOf pr)) ∧
    listMinQ (resistanceLevelsOf pr) ∈ resistanceLevelsOf pr ∧
    (∀ x ∈ resistanceLevelsOf pr, listMinQ (resistanceLevelsOf pr) ≤ x) ∧
    (findSR pr).nearest_support = some (listMaxQ (supportLevelsOf pr)) ∧
    listMaxQ (supportLevelsOf pr) ∈ supportLevelsOf pr ∧
    (∀ x ∈ supportLevelsOf pr, x ≤ listMaxQ (supportLevelsOf pr)) := by
  have hre : (resistanceLevelsOf pr).isEmpty = false :=
    Bool.eq_false_iff.mpr (fun hh => hr (List.isEmpty_iff.mp hh))
  have hse : (supportLevelsOf pr).isEmpty = false :=
    Bool.eq_false_iff.mpr (fun hh => hs (List.isEmpty_iff.mp hh))
  refine ⟨?_, listMinQ_mem _ hr, listMinQ_le _, ?_, listMaxQ_mem _ hs, listMaxQ_ge _⟩
  · simp [findSR, hre]
  · simp [findSR, hse]

/-- Claim C6 witness: the amended claim evaluated at ps6. -/
theorem C6_nearest_levels_witness :
    resistanceLevelsOf ps6 ≠ [] ∧ supportLevelsOf ps6 ≠ [] ∧
    (findSR ps6).nearest_resistance = some (listMinQ (resistanceLevelsOf ps6)) ∧
    (findSR ps6).nearest_support = some (listMaxQ (supportLevelsOf ps6)) := by
  have h1 : resistanceLevelsOf ps6 ≠ [] := by with_unfolding_all decide
  have h2 : supportLevelsOf ps6 ≠ [] := by with_unfolding_all decide
  exact ⟨h1, h2, (C6_nearest_levels ps6 h1 h2).1, (C6_nearest_levels ps6 h1 h2).2.2.2.1⟩

/-- Claim C7: the overall sentiment is Bullish exactly when the bullish count
strictly exceeds the bearish plus neutral count, Bearish in the symmetric
case, Neutral otherwise; the confidence of a winning sentiment is High
exactly when the winning count is at least 3, else Medium, and Neutral
always reports Medium. -/
theorem C7_summary_sentiment (sigs : List String) :
    ((summaryOfSignals sigs).overall_sentiment = "Bullish" ↔
      bearishCount sigs + (sigs.length - bullishCount sigs - bearishCount sigs) < bullishCount sigs) ∧
    ((summaryOfSignals sigs).overall_sentiment = "Bearish" ↔
      bullishCount sigs + (sigs.length - bullishCount sigs - bearishCount sigs) < bearishCount sigs) ∧
    ((summaryOfSignals sigs).overall_sentiment = "Neutral" →
      (summaryOfSignals sigs).confidence = "Medium") ∧
    ((summaryOfSignals sigs).overall_sentiment = "Bullish" →
      ((summaryOfSignals sigs).confidence = "High" ↔ 3 ≤ bullishCount sigs)) ∧
    ((summaryOfSignals sigs).overall_sentiment = "Bearish" →
      ((summaryOfSignals sigs).confidence = "High" ↔ 3 ≤ bearishCount sigs)) ∧
    ((summaryOfSignals sigs).confidence = "High" ∨ (summaryOfSignals sigs).confidence = "Medium") := by
  by_cases hb : bearishCount sigs + (sigs.length - bullishCount sigs - bearishCount sigs) < bullishCount sigs
  · by_cases h3 : 3 ≤ bullishCount sigs <;>
      simp [summaryOfSignals, hb, h3] <;> omega
  · by_cases hr : bullishCount sigs + (sigs.length - bullishCount sigs - bearishCount sigs) < bearishCount sigs
    · by_cases h3 : 3 ≤ bearishCount sigs <;>
        simp [summaryOfSignals, hb, hr, h3]
    · simp [summaryOfSignals, hb, hr]

/-- Claim C8 counterexample: in ps8 the current price (30) is strictly above
the price 5 periods back (ps8 at index 14 = 19 - 5, namely 10), yet the
momentum label is Negative, because the source compares against
prices.iloc[-5] (index 15, namely 40) instead. -/
theorem C8_momentum_counterexample :
    ps8.length = 20 ∧
    ps8.getD (ps8.length - 1 - 5) 0 < ps8.getLastD 0 ∧
    (calcMomentum ps8).momentum = "Negative" := by
  with_unfolding_all decide

/-- Claim C8 (amended): for every accepted series the momentum label is
Positive exactly when the last price strictly exceeds the fifth-from-last
price (prices.iloc[-5], i.e. the price 4 periods before the last), and
Negative otherwise. -/
theorem C8_momentum_label (pr : List ℚ) (h : 20 ≤ pr.length) :
    ((calcMomentum pr).momentum = "Positive" ↔ pr.getD (pr.length - 5) 0 < pr.getLastD 0) ∧
    ((calcMomentum pr).momentum = "Negative" ↔ ¬ pr.getD (pr.length - 5) 0 < pr.getLastD 0) := by
  by_cases hc : pr.getD (pr.length - 5) 0 < pr.getLastD 0 <;>
    simp [calcMomentum, hc]

/-- Claim C8 witness: the amended claim evaluated at ps8. -/
theorem C8_momentum_label_witness :
    20 ≤ ps8.length ∧
    ((calcMomentum ps8).momentum = "Positive" ↔ ps8.getD (ps8.length - 5) 0 < ps8.getLastD 0) :=
  ⟨by decide, (C8_momentum_label ps8 (by decide)).1⟩

/-- Claim C9 counterexample: 20 price points with a strictly longer volume
list (21 entries) are NOT accepted: assigning the volume column raises a
pandas length mismatch, and analyze_patterns returns a top-level error
result (the Python message also interpolates the two lengths). -/
theorem C9_length_counterexample :
    20 ≤ hd9long.prices.length ∧
    hd9long.prices.length ≤ hd9long.total_volumes.length ∧
    hd9long.prices.length ≠ hd9long.total_volumes.length ∧
    analyze_patterns sqId 0 hd9long = .error "Length of values does not match length of index" := by
  with_unfolding_all decide

/-- Claim C9 (amended): analyze_patterns accepts an input with at least 20
price points exactly when the volume list has the same length as the price
list, in which case it returns the computed pattern mapping (volumes being
consumed positionally), not a top-level error. -/
theorem C9_accepts_equal_lengths (sq : PF → PF) (now : ℚ) (hd : HistData)
    (h20 : 20 ≤ hd.prices.length) (hv : hd.total_volumes.length = hd.prices.length) :
    exceptOk (analyze_patterns sq now hd) = true := by
  unfold analyze_patterns
  rw [if_neg (by omega), if_neg (not_ne_iff.mpr hv)]
  rfl

/-- Claim C9 witness: the amended claim at 20 prices with 20 volumes. -/
theorem C9_accepts_equal_lengths_witness :
    20 ≤ hd9eq.prices.length ∧ hd9eq.total_volumes.length = hd9eq.prices.length ∧
    exceptOk (analyze_patterns sqId 0 hd9eq) = true :=
  ⟨by decide, by decide, C9_accepts_equal_lengths sqId 0 hd9eq (by decide) (by decide)⟩

/-- Claim C10: for every accepted input the volatility analysis is returned
(its slot holds a computed payload, not an error), and whenever the mean
24-period rolling volatility is undefined (NaN) or zero the
recent-vs-historical field is reported as 0 without performing the division;
in particular for any accepted series of at most 24 points no rolling window
is complete, so the mean is NaN and the field is 0. -/
theorem C10_volatility_guard (sq : PF → PF) (now : ℚ) (hd : HistData)
    (h20 : 20 ≤ hd.prices.length) (hv : hd.total_volumes.length = hd.prices.length)
    (hh : histVol sq (patPrices hd) = PF.nan ∨ histVol sq (patPrices hd) = PF.num 0) :
    okVolSlot (analyze_patterns sq now hd) = .ok (analyzeVolatility sq (patPrices hd)) ∧
    (analyzeVolatility sq (patPrices hd)).recent_vs_historical = PF.num 0 ∧
    (hd.prices.length ≤ 24 → histVol sq (patPrices hd) = PF.nan) := by
  refine ⟨?_, ?_, ?_⟩
  · unfold analyze_patterns
    rw [if_neg (by omega), if_neg (not_ne_iff.mpr hv)]
    rfl
  · rcases hh with hh | hh <;> simp [analyzeVolatility, hh, PF.lt]
  · intro hle
    have hlen : (patPrices hd).length = hd.prices.length := by
      rw [patPrices, List.length_map]
      exact (List.perm_insertionSort _ _).length_eq
    exact histVol_short_nan sq _ (by omega) (by omega)

/-- Claim C10 witness: a 20-point constant series with aligned volumes; only
19 returns exist, the rolling mean is NaN, and the field is reported as 0. -/
theorem C10_volatility_guard_witness :
    20 ≤ hd10w.prices.length ∧ hd10w.total_volumes.length = hd10w.prices.length ∧
    (histVol sqId (patPrices hd10w) = PF.nan ∨ histVol sqId (patPrices hd10w) = PF.num 0) ∧
    (analyzeVolatility sqId (patPrices hd10w)).recent_vs_historical = PF.num 0 :=
  ⟨by decide, by decide, by with_unfolding_all decide,
   (C10_volatility_guard sqId 0 hd10w (by decide) (by decide)
     (by with_unfolding_all decide)).2.1⟩
